import Mathlib

/-
Shallow embedding of the UptimeMonitor repository (src/app.js and the
sequelize models).  The source base contains two variants of the server,
separated in src/app.js: variant 1 (lines 1-240, with the named helper
`checkIpAddress` at lines 142-146) and variant 2 (lines 241-461, with an
inline IP regex at lines 365-368).  The two Monitor model variants are in
src/unnamed/part_000 (defaultValue `offline`) and src/unnamed/part_001
(defaultValue `online`).  Statuses are the string literals `online`,
`offline`, `timeout` exactly as in the source.
-/

namespace UptimeMonitor

/-- Character class `[0-9]` of the source regexes: a decimal digit.
Char code points: `0` = 48, `9` = 57. -/
def isDig (c : Char) : Bool :=
  decide (48 ≤ c.toNat ∧ c.toNat ≤ 57)

/-- Full-match semantics of the variant-1 octet pattern
`25[0-5]|2[0-4][0-9]|[01]?[0-9][0-9]?` (src/app.js line 143), spelled out
by the length of the candidate octet (`2` = 50, `5` = 53, `4` = 52,
`0` = 48, `1` = 49):
length 1 matches only via `[01]?[0-9][0-9]?` with both optional pieces
empty; length 2 via `[01]?[0-9][0-9]?` with one optional piece present
(either `[01][0-9]` or `[0-9][0-9]`); length 3 via any of the three
alternatives. -/
def octV1 : List Char → Bool
  | [a] => isDig a
  | [a, b] => (decide (a.toNat = 48 ∨ a.toNat = 49) && isDig b) || (isDig a && isDig b)
  | [a, b, c] =>
      (decide (a.toNat = 50 ∧ b.toNat = 53 ∧ 48 ≤ c.toNat ∧ c.toNat ≤ 53)) ||
      (decide (a.toNat = 50 ∧ 48 ≤ b.toNat ∧ b.toNat ≤ 52) && isDig c) ||
      (decide (a.toNat = 48 ∨ a.toNat = 49) && isDig b && isDig c)
  | _ => false

/-- Full-match semantics of the variant-2 octet pattern used for octets
2-4 of the inline regex `[0-5]?[0-9]|[01]?[0-9][0-9]?` (src/app.js line
366): length 1 via either alternative with the optional head empty;
length 2 via `[0-5][0-9]`, `[01][0-9]` or `[0-9][0-9]`; length 3 only via
`[01][0-9][0-9]`. -/
def octV2 : List Char → Bool
  | [a] => isDig a
  | [a, b] =>
      (decide (48 ≤ a.toNat ∧ a.toNat ≤ 53) && isDig b) ||
      (decide (a.toNat = 48 ∨ a.toNat = 49) && isDig b) ||
      (isDig a && isDig b)
  | [a, b, c] => decide (a.toNat = 48 ∨ a.toNat = 49) && isDig b && isDig c
  | _ => false

/-- Split a character list at every `.` (code point 46).  An anchored
regex `^(oct)\.(oct)\.(oct)\.(oct)$` whose octet patterns match only
digit strings matches a string iff this split yields exactly four pieces
each matching the octet pattern. -/
def splitOnDot : List Char → List (List Char)
  | [] => [[]]
  | c :: rest =>
    if c.toNat = 46 then [] :: splitOnDot rest
    else
      match splitOnDot rest with
      | [] => [[c]]
      | p :: ps => (c :: p) :: ps

/-- Variant 1 classifier `checkIpAddress` (src/app.js lines 142-146): the
anchored regex with the strict 0-255 octet pattern in all four
positions. -/
def checkIpAddress (s : String) : Bool :=
  match splitOnDot s.data with
  | [a, b, c, d] => octV1 a && octV1 b && octV1 c && octV1 d
  | _ => false

/-- Variant 2 inline classifier (src/app.js lines 365-368): the first
octet uses the strict 0-255 pattern but octets 2-4 use the narrower
`[0-5]?[0-9]|[01]?[0-9][0-9]?` pattern. -/
def isIpAddressV2 (s : String) : Bool :=
  match splitOnDot s.data with
  | [a, b, c, d] => octV1 a && octV2 b && octV2 c && octV2 d
  | _ => false

/-- Decimal value of a digit string (most significant first). -/
def octVal (l : List Char) : Nat :=
  List.foldl (fun n c => 10 * n + (c.toNat - 48)) 0 l

/-- Specification-side octet predicate: a nonempty string of at most
three decimal digits whose value is at most 255 (leading zeros
permitted, as in the source regex). -/
def strictOct (l : List Char) : Bool :=
  !l.isEmpty && decide (l.length ≤ 3) && l.all isDig && decide (octVal l ≤ 255)

/-- Specification-side classifier: a strict IPv4 dotted-quad, four
octets each in 0-255 separated by single dots. -/
def strictIPv4 (s : String) : Bool :=
  match splitOnDot s.data with
  | [a, b, c, d] => strictOct a && strictOct b && strictOct c && strictOct d
  | _ => false

/-- A JavaScript error value, identified by its `name` property, the only
property the source inspects (at `error.name === `AbortError``,
src/app.js lines 176 and 394). -/
structure JsError where
  name : String
deriving DecidableEq

deriving instance DecidableEq for Except

/-- Outcome of the `ping.promise.probe` call: the promise resolves with a
result object carrying `alive`, or rejects. -/
inductive PingResult where
  | success (alive : Bool)
  | failure
deriving DecidableEq

/-- Outcome of a `fetch` call: the promise resolves with a response whose
`ok` flag is given (every HTTP status resolves, including non-2xx), or
rejects with an error. -/
inductive FetchResult where
  | success (ok : Bool)
  | failure (e : JsError)
deriving DecidableEq

/-- IP branch of `checkStatus`, identical in both variants up to the
options passed to ping (src/app.js lines 152-161 and 370-379):
`res.alive` yields `online`/`offline` and any ping rejection is caught
and yields `offline`. -/
def checkStatusPing (p : PingResult) : Except JsError String :=
  match p with
  | .success alive => .ok (if alive then "online" else "offline")
  | .failure => .ok "offline"

/-- URL branch of variant 1 `checkStatus` (src/app.js lines 162-181): a
HEAD fetch under an abort timer; `res.ok` yields `online`/`offline`; a
caught error named AbortError yields `offline`; any other error is
rethrown (`throw error`, line 179). -/
def checkStatusUrlV1 (f : FetchResult) : Except JsError String :=
  match f with
  | .success ok => .ok (if ok then "online" else "offline")
  | .failure e => if e.name = "AbortError" then .ok "offline" else .error e

/-- URL branch of variant 2 `checkStatus` (src/app.js lines 380-399):
identical to variant 1 except a caught AbortError yields `timeout`
(line 395); any other error is rethrown (line 397). -/
def checkStatusUrlV2 (f : FetchResult) : Except JsError String :=
  match f with
  | .success ok => .ok (if ok then "online" else "offline")
  | .failure e => if e.name = "AbortError" then .ok "timeout" else .error e

/-- Variant 1 `checkStatus` (src/app.js lines 149-182), as a function of
the address and of what the network would answer on each branch. -/
def checkStatusV1 (ipOrUrl : String) (p : PingResult) (f : FetchResult) :
    Except JsError String :=
  if checkIpAddress ipOrUrl then checkStatusPing p else checkStatusUrlV1 f

/-- Variant 2 `checkStatus` (src/app.js lines 364-400). -/
def checkStatusV2 (ipOrUrl : String) (p : PingResult) (f : FetchResult) :
    Except JsError String :=
  if isIpAddressV2 ipOrUrl then checkStatusPing p else checkStatusUrlV2 f

/-- Timeout option variant 1 passes to `ping.promise.probe` (src/app.js
lines 155-157): timeout = TIMEOUT_MS / 1000 seconds, JS number division
modelled exactly as a rational. -/
def pingTimeoutOptionV1 (timeoutMs : ℕ) : Option ℚ :=
  some ((timeoutMs : ℚ) / 1000)

/-- Variant 2 calls `ping.promise.probe(monitor.ipOrUrl)` with no options
object at all (src/app.js line 374), so no timeout option is passed. -/
def pingTimeoutOptionV2 : Option ℚ :=
  none

/-- The Monitor row fields the engine reads and writes (models in
src/unnamed/part_000 and part_001; the `portNumber` column of part_001
is never read or written by the engine and is not modelled).
`lastChecked` and `webhookUrl` are nullable columns. -/
structure Monitor where
  ipOrUrl : String
  lastStatus : String
  lastChecked : Option Nat
  webhookUrl : Option String
deriving DecidableEq

/-- Monitor created by the `/add-monitor` handler via
`Monitor.create(. ipOrUrl .)` (src/app.js line 82) under the part_000
model, whose `lastStatus` column has defaultValue `offline`. -/
def createMonitorV1 (ipOrUrl : String) : Monitor :=
  ⟨ipOrUrl, "offline", none, none⟩

/-- Monitor created by the variant-2 `/add-monitor` handler (src/app.js
line 309) under the part_001 model, whose `lastStatus` column has
defaultValue `online`. -/
def createMonitorV2 (ipOrUrl : String) : Monitor :=
  ⟨ipOrUrl, "online", none, none⟩

/-- A MonitorLog row as created by `updateMonitorStatus` via
`MonitorLog.create(. ipOrUrl, status .)` (src/app.js line 185). -/
structure LogEntry where
  ipOrUrl : String
  status : String
deriving DecidableEq

/-- A JSON value as used in the webhook body: a string or a number. -/
inductive JVal where
  | s (v : String)
  | n (v : Nat)
deriving DecidableEq

/-- JSON body of the webhook POST (src/app.js lines 197-200): exactly the
two fields monitor_status and timestamp, the latter
`Math.floor(Date.now() / 1000)`, i.e. milliseconds floored to unix
seconds. -/
def webhookBody (status : String) (nowMs : Nat) : List (String × JVal) :=
  [("monitor_status", JVal.s status), ("timestamp", JVal.n (nowMs / 1000))]

/-- One attempted HTTP POST of the notifier. -/
structure Post where
  url : String
  body : List (String × JVal)
deriving DecidableEq

/-- JS truthiness of the nullable webhookUrl column as tested by
`if (!monitor.webhookUrl) return;` (src/app.js lines 191 and 410):
null/undefined and the empty string are falsy. -/
def webhookUrlTruthy : Option String → Bool
  | none => false
  | some u => decide (u ≠ "")

/-- `sendWebhook` (src/app.js lines 190-210; lines 408-429 are identical
up to a console.log): returns the list of POST attempts made.  The
try/catch around the fetch logs a delivery failure and swallows it, so
the function itself never rejects whatever the delivery outcome. -/
def sendWebhook (m : Monitor) (status : String) (nowMs : Nat)
    (delivery : FetchResult) : Except JsError (List Post) :=
  if webhookUrlTruthy m.webhookUrl then
    let attempt := [Post.mk (m.webhookUrl.getD "") (webhookBody status nowMs)]
    match delivery with
    | .success _ => .ok attempt
    | .failure _ => .ok attempt
  else .ok []

/-- `updateMonitorStatus` (src/app.js lines 184-188 and 402-406): append
one MonitorLog row and set lastStatus and lastChecked (to `new Date()`,
the current time) on the monitor row; webhookUrl and ipOrUrl are
untouched. -/
def updateMonitorStatus (m : Monitor) (status : String) (nowMs : Nat) :
    Monitor × List LogEntry :=
  (⟨m.ipOrUrl, status, some nowMs, m.webhookUrl⟩, [⟨m.ipOrUrl, status⟩])

/-- Observable outcome of one per-target pipeline run: the monitor row
afterwards, the MonitorLog rows appended, and the webhook POSTs
attempted. -/
structure RunResult where
  monitor : Monitor
  newLogs : List LogEntry
  posts : List Post
deriving DecidableEq

/-- Variant 1 `handleMonitor` (src/app.js lines 212-223): probe, and only
when the fresh status differs from `monitor.lastStatus` run
`updateMonitorStatus` then `sendWebhook`; the surrounding try/catch
logs any thrown error and leaves all state untouched. -/
def handleMonitorV1 (m : Monitor) (nowMs : Nat) (p : PingResult)
    (f : FetchResult) (delivery : FetchResult) : RunResult :=
  match checkStatusV1 m.ipOrUrl p f with
  | .error _ => ⟨m, [], []⟩
  | .ok status =>
    if status = m.lastStatus then ⟨m, [], []⟩
    else
      let r := updateMonitorStatus m status nowMs
      match sendWebhook r.1 status nowMs delivery with
      | .ok posts => ⟨r.1, r.2, posts⟩
      | .error _ => ⟨r.1, r.2, []⟩

/-- Variant 2 `handleMonitor` (src/app.js lines 431-443): identical logic
over the variant-2 `checkStatus`. -/
def handleMonitorV2 (m : Monitor) (nowMs : Nat) (p : PingResult)
    (f : FetchResult) (delivery : FetchResult) : RunResult :=
  match checkStatusV2 m.ipOrUrl p f with
  | .error _ => ⟨m, [], []⟩
  | .ok status =>
    if status = m.lastStatus then ⟨m, [], []⟩
    else
      let r := updateMonitorStatus m status nowMs
      match sendWebhook r.1 status nowMs delivery with
      | .ok posts => ⟨r.1, r.2, posts⟩
      | .error _ => ⟨r.1, r.2, []⟩


/-- Helper: the strict octet pattern matches exactly the 1-3 digit
strings with value at most 255. -/
theorem octV1_eq_strictOct (l : List Char) : octV1 l = strictOct l := by
  match l with
  | [] => rfl
  | [a] =>
    rw [Bool.eq_iff_iff]
    simp [octV1, strictOct, octVal, isDig]
    omega
  | [a, b] =>
    rw [Bool.eq_iff_iff]
    simp [octV1, strictOct, octVal, isDig]
    omega
  | [a, b, c] =>
    rw [Bool.eq_iff_iff]
    simp [octV1, strictOct, octVal, isDig]
    omega
  | a :: b :: c :: d :: t =>
    rw [Bool.eq_iff_iff]
    simp [octV1, strictOct]

/-- Helper: the variant-1 classifier agrees with the specification-side
strict dotted-quad predicate on every string. -/
theorem checkIpAddress_eq_strict (s : String) : checkIpAddress s = strictIPv4 s := by
  unfold checkIpAddress strictIPv4
  rcases splitOnDot s.data with _ | ⟨a, _ | ⟨b, _ | ⟨c, _ | ⟨d, _ | ⟨e, t⟩⟩⟩⟩⟩ <;>
    simp [octV1_eq_strictOct]

/-- C5: the variant-1 classifier `checkIpAddress` returns true exactly when
the address is a strict IPv4 dotted-quad with each octet in 0-255 (a pure
function of the address), and the four boundary inputs classify as the
claim states; but the variant-2 inline regex rejects `255.255.255.255`
(its octet patterns for positions 2-4 only admit values up to 199), so
variant 2 diverges from the claim and from the spec boundary test. -/
theorem checkIpAddress_strict_and_v2_divergence :
    (∀ s : String, checkIpAddress s = strictIPv4 s) ∧
    checkIpAddress "0.0.0.0" = true ∧
    checkIpAddress "255.255.255.255" = true ∧
    checkIpAddress "256.1.1.1" = false ∧
    checkIpAddress "http://example.com" = false ∧
    strictIPv4 "255.255.255.255" = true ∧
    isIpAddressV2 "255.255.255.255" = false ∧
    isIpAddressV2 "1.200.1.1" = false :=
  ⟨checkIpAddress_eq_strict, by decide, by decide, by decide, by decide, by decide, by decide, by decide⟩

/-- C1: for every target and every pipeline run whose probe resolves, a
MonitorLog row is created iff the freshly probed status differs from the
lastStatus read at the start of the run; and when it differs, exactly one
row carrying the new status is appended, lastStatus is set to the new
status and lastChecked to the current time. -/
theorem handleMonitor_statusEvent_iff (m : Monitor) (nowMs : Nat) (p : PingResult)
    (f : FetchResult) (d : FetchResult) (st : String)
    (h : checkStatusV1 m.ipOrUrl p f = .ok st) :
    ((handleMonitorV1 m nowMs p f d).newLogs ≠ [] ↔ st ≠ m.lastStatus) ∧
    (st ≠ m.lastStatus →
      (handleMonitorV1 m nowMs p f d).newLogs = [⟨m.ipOrUrl, st⟩] ∧
      (handleMonitorV1 m nowMs p f d).monitor.lastStatus = st ∧
      (handleMonitorV1 m nowMs p f d).monitor.lastChecked = some nowMs) := by
  unfold handleMonitorV1
  rw [h]
  by_cases hst : st = m.lastStatus
  · simp [hst]
  · simp only [updateMonitorStatus]
    rw [if_neg hst]
    split <;> simp [hst]

/-- C6: when the freshly probed status equals lastStatus, the pipeline
run appends no MonitorLog row, attempts no webhook POST, and leaves the
monitor row - in particular lastChecked - unchanged. -/
theorem handleMonitor_noChange_frame (m : Monitor) (nowMs : Nat) (p : PingResult)
    (f : FetchResult) (d : FetchResult)
    (h : checkStatusV1 m.ipOrUrl p f = .ok m.lastStatus) :
    handleMonitorV1 m nowMs p f d = ⟨m, [], []⟩ := by
  unfold handleMonitorV1
  rw [h]
  simp

/-- Helper: the IP branch always resolves to a status. -/
theorem ping_resolves (p : PingResult) :
    ∃ s, checkStatusPing p = .ok s ∧ (s = "online" ∨ s = "offline" ∨ s = "timeout") := by
  cases p with
  | success alive => cases alive
                     · exact ⟨"offline", rfl, Or.inr (Or.inl rfl)⟩
                     · exact ⟨"online", rfl, Or.inl rfl⟩
  | failure => exact ⟨"offline", rfl, Or.inr (Or.inl rfl)⟩

/-- Helper: the variant-1 URL branch resolves to a status except on a
non-abort transport error, which it rethrows. -/
theorem urlV1_resolves_or_escapes (f : FetchResult) :
    (∃ s, checkStatusUrlV1 f = .ok s ∧ (s = "online" ∨ s = "offline" ∨ s = "timeout")) ∨
    (∃ e, f = .failure e ∧ e.name ≠ "AbortError" ∧ checkStatusUrlV1 f = .error e) := by
  cases f with
  | success ok =>
    cases ok
    · exact Or.inl ⟨"offline", rfl, Or.inr (Or.inl rfl)⟩
    · exact Or.inl ⟨"online", rfl, Or.inl rfl⟩
  | failure e =>
    by_cases he : e.name = "AbortError"
    · exact Or.inl ⟨"offline", by simp [checkStatusUrlV1, he], Or.inr (Or.inl rfl)⟩
    · exact Or.inr ⟨e, rfl, he, by simp [checkStatusUrlV1, he]⟩

/-- Helper: the variant-2 URL branch resolves to a status except on a
non-abort transport error, which it rethrows. -/
theorem urlV2_resolves_or_escapes (f : FetchResult) :
    (∃ s, checkStatusUrlV2 f = .ok s ∧ (s = "online" ∨ s = "offline" ∨ s = "timeout")) ∨
    (∃ e, f = .failure e ∧ e.name ≠ "AbortError" ∧ checkStatusUrlV2 f = .error e) := by
  cases f with
  | success ok =>
    cases ok
    · exact Or.inl ⟨"offline", rfl, Or.inr (Or.inl rfl)⟩
    · exact Or.inl ⟨"online", rfl, Or.inl rfl⟩
  | failure e =>
    by_cases he : e.name = "AbortError"
    · exact Or.inl ⟨"timeout", by simp [checkStatusUrlV2, he], Or.inr (Or.inr rfl)⟩
    · exact Or.inr ⟨e, rfl, he, by simp [checkStatusUrlV2, he]⟩

/-- C3 (amended): every code path of checkStatus on the IP branch
resolves to one of the three statuses, and on the URL branch every
resolved response and every AbortError resolves to one of the three
statuses; but a non-abort transport error (DNS failure, connection
refused, TLS failure) does not resolve: in both variants it is rethrown
out of checkStatus, to be caught only by the pipeline-level handler in
handleMonitor. -/
theorem checkStatus_resolves_except_nonabort (a : String) (p : PingResult) (f : FetchResult) :
    ((∃ s, checkStatusV1 a p f = .ok s ∧ (s = "online" ∨ s = "offline" ∨ s = "timeout")) ∨
      (∃ e, f = .failure e ∧ e.name ≠ "AbortError" ∧ checkIpAddress a = false ∧
        checkStatusV1 a p f = .error e)) ∧
    ((∃ s, checkStatusV2 a p f = .ok s ∧ (s = "online" ∨ s = "offline" ∨ s = "timeout")) ∨
      (∃ e, f = .failure e ∧ e.name ≠ "AbortError" ∧ isIpAddressV2 a = false ∧
        checkStatusV2 a p f = .error e)) := by
  constructor
  · unfold checkStatusV1
    by_cases hip : checkIpAddress a
    · rw [if_pos hip]
      exact Or.inl (ping_resolves p)
    · rw [if_neg hip]
      rcases urlV1_resolves_or_escapes f with h | ⟨e, hf, hn, he⟩
      · exact Or.inl h
      · exact Or.inr ⟨e, hf, hn, Bool.not_eq_true _ ▸ (by simpa using hip), he⟩
  · unfold checkStatusV2
    by_cases hip : isIpAddressV2 a
    · rw [if_pos hip]
      exact Or.inl (ping_resolves p)
    · rw [if_neg hip]
      rcases urlV2_resolves_or_escapes f with h | ⟨e, hf, hn, he⟩
      · exact Or.inl h
      · exact Or.inr ⟨e, hf, hn, by simpa using hip, he⟩

/-- C3 counterexample: on a URL-classified address, a transport error
not named AbortError escapes checkStatus as a rejection in both
variants, so not every code path resolves to one of the three
statuses. -/
theorem checkStatus_url_transport_error_escapes :
    checkStatusV1 "http://example.com" (.success true) (.failure ⟨"FetchError"⟩) =
      .error ⟨"FetchError"⟩ ∧
    (checkStatusV1 "http://example.com" (.success true) (.failure ⟨"FetchError"⟩)).isOk = false ∧
    checkStatusV2 "http://example.com" (.success true) (.failure ⟨"FetchError"⟩) =
      .error ⟨"FetchError"⟩ ∧
    (checkStatusV2 "http://example.com" (.success true) (.failure ⟨"FetchError"⟩)).isOk = false :=
  ⟨rfl, rfl, rfl, rfl⟩

/-- C4 counterexample: variant 1 maps an AbortError to `offline`, not
`timeout`; and variant 2 rethrows a non-abort transport error instead of
yielding `offline`.  So the claim fails on both cited code sites. -/
theorem checkStatus_url_abort_and_error_claim_false :
    checkStatusUrlV1 (.failure ⟨"AbortError"⟩) = .ok "offline" ∧
    checkStatusUrlV1 (.failure ⟨"AbortError"⟩) ≠ .ok "timeout" ∧
    checkStatusUrlV2 (.failure ⟨"FetchError"⟩) = .error ⟨"FetchError"⟩ ∧
    checkStatusUrlV2 (.failure ⟨"FetchError"⟩) ≠ .ok "offline" := by
  refine ⟨rfl, ?_, rfl, ?_⟩ <;> decide

/-- C4 (amended): for a URL-classified target, a caught AbortError
yields `timeout` in variant 2 but `offline` in variant 1; in both
variants any other transport error is rethrown out of checkStatus (and
caught at the pipeline level) rather than yielding `offline`. -/
theorem checkStatus_url_error_classification (a : String) (p : PingResult) (e : JsError)
    (h1 : checkIpAddress a = false) (h2 : isIpAddressV2 a = false) :
    checkStatusV1 a p (.failure e) =
      (if e.name = "AbortError" then .ok "offline" else .error e) ∧
    checkStatusV2 a p (.failure e) =
      (if e.name = "AbortError" then .ok "timeout" else .error e) := by
  unfold checkStatusV1 checkStatusV2 checkStatusUrlV1 checkStatusUrlV2
  simp [h1, h2]

/-- Witness for the amended C4 theorem at a concrete URL address and a
concrete AbortError. -/
theorem checkStatus_url_error_classification_witness :
    checkStatusV1 "http://example.com" (.success true) (.failure ⟨"AbortError"⟩) =
      (if (JsError.mk "AbortError").name = "AbortError" then .ok "offline"
       else .error ⟨"AbortError"⟩) ∧
    checkStatusV2 "http://example.com" (.success true) (.failure ⟨"AbortError"⟩) =
      (if (JsError.mk "AbortError").name = "AbortError" then .ok "timeout"
       else .error ⟨"AbortError"⟩) :=
  checkStatus_url_error_classification "http://example.com" (.success true) ⟨"AbortError"⟩
    (by decide) (by decide)

/-- C7 counterexample: variant 2 invokes ping.promise.probe with no
options object, so the configured timeout is silently ignored there,
unlike variant 1 which passes TIMEOUT_MS / 1000. -/
theorem ping_timeout_option_ignored_v2 :
    pingTimeoutOptionV2 = none ∧
    pingTimeoutOptionV1 5000 = some 5 ∧
    pingTimeoutOptionV2 ≠ pingTimeoutOptionV1 5000 := by
  refine ⟨rfl, ?_, ?_⟩
  · unfold pingTimeoutOptionV1
    norm_num
  · unfold pingTimeoutOptionV1 pingTimeoutOptionV2
    simp

/-- C7 (amended): variant 1 passes the configured TIMEOUT_MS / 1000
seconds as the ping timeout option, and any ping rejection or non-reply
within the bound is classified `offline` (variant 2 classifies errors
identically but passes no timeout option, see the counterexample). -/
theorem ping_branch_timeout_and_offline (a : String) (t : Nat) (f : FetchResult)
    (h : checkIpAddress a = true) :
    pingTimeoutOptionV1 t = some ((t : ℚ) / 1000) ∧
    checkStatusV1 a .failure f = .ok "offline" ∧
    checkStatusV1 a (.success false) f = .ok "offline" ∧
    checkStatusV1 a (.success true) f = .ok "online" := by
  unfold checkStatusV1 checkStatusPing
  simp [h, pingTimeoutOptionV1]

/-- Witness for the amended C7 theorem at the address `8.8.8.8` with the
default 5000 ms timeout. -/
theorem ping_branch_timeout_and_offline_witness :
    pingTimeoutOptionV1 5000 = some (((5000 : ℕ) : ℚ) / 1000) ∧
    checkStatusV1 "8.8.8.8" .failure (.success true) = .ok "offline" ∧
    checkStatusV1 "8.8.8.8" (.success false) (.success true) = .ok "offline" ∧
    checkStatusV1 "8.8.8.8" (.success true) (.success true) = .ok "online" :=
  ping_branch_timeout_and_offline "8.8.8.8" 5000 (.success true) (by decide)

/-- Helper: closed form of sendWebhook - it always returns normally and
attempts exactly one POST when webhookUrl is truthy, none otherwise,
independently of the delivery outcome. -/
theorem sendWebhook_eq (m : Monitor) (status : String) (nowMs : Nat) (d : FetchResult) :
    sendWebhook m status nowMs d =
      .ok (if webhookUrlTruthy m.webhookUrl then
            [Post.mk (m.webhookUrl.getD "") (webhookBody status nowMs)] else []) := by
  unfold sendWebhook
  by_cases h : webhookUrlTruthy m.webhookUrl <;> cases d <;> simp [h]

/-- C8: sendWebhook makes zero POST attempts when webhookUrl is unset,
and otherwise performs exactly one POST to webhookUrl whose JSON body
has exactly the two fields monitor_status (the new status) and
timestamp (current unix seconds). -/
theorem sendWebhook_exactly_once (m : Monitor) (status : String) (nowMs : Nat)
    (d : FetchResult) :
    (m.webhookUrl = none → sendWebhook m status nowMs d = .ok []) ∧
    (∀ url, m.webhookUrl = some url → url ≠ "" →
      sendWebhook m status nowMs d =
        .ok [⟨url, [("monitor_status", .s status), ("timestamp", .n (nowMs / 1000))]⟩]) := by
  constructor
  · intro h
    rw [sendWebhook_eq]
    simp [h, webhookUrlTruthy]
  · intro url hu hne
    rw [sendWebhook_eq]
    simp [hu, webhookUrlTruthy, hne, webhookBody]

/-- Witness for the C8 theorem: one monitor without webhookUrl, one with
a nonempty webhookUrl. -/
theorem sendWebhook_exactly_once_witness :
    sendWebhook ⟨"8.8.8.8", "offline", none, none⟩ "online" 60000 (.success true) = .ok [] ∧
    sendWebhook ⟨"8.8.8.8", "offline", none, some "http://h.example"⟩ "online" 60000
        (.success true) =
      .ok [⟨"http://h.example",
            [("monitor_status", .s "online"), ("timestamp", .n (60000 / 1000))]⟩] :=
  ⟨(sendWebhook_exactly_once ⟨"8.8.8.8", "offline", none, none⟩ "online" 60000
      (.success true)).1 rfl,
   (sendWebhook_exactly_once ⟨"8.8.8.8", "offline", none, some "http://h.example"⟩ "online"
      60000 (.success true)).2 "http://h.example" rfl (by decide)⟩

/-- Helper: closed form of one variant-1 pipeline run. -/
theorem handleMonitorV1_eq (m : Monitor) (nowMs : Nat) (p : PingResult)
    (f : FetchResult) (d : FetchResult) :
    handleMonitorV1 m nowMs p f d =
      match checkStatusV1 m.ipOrUrl p f with
      | .error _ => ⟨m, [], []⟩
      | .ok status =>
        if status = m.lastStatus then ⟨m, [], []⟩
        else ⟨⟨m.ipOrUrl, status, some nowMs, m.webhookUrl⟩, [⟨m.ipOrUrl, status⟩],
              if webhookUrlTruthy m.webhookUrl then
                [Post.mk (m.webhookUrl.getD "") (webhookBody status nowMs)] else []⟩ := by
  unfold handleMonitorV1
  cases checkStatusV1 m.ipOrUrl p f with
  | error e => rfl
  | ok status =>
    dsimp only
    by_cases hst : status = m.lastStatus
    · simp [hst]
    · rw [if_neg hst, if_neg hst, sendWebhook_eq]
      dsimp [updateMonitorStatus]

/-- Helper: the monitor row and appended logs of a pipeline run do not
depend on the webhook delivery outcome. -/
theorem handleMonitor_delivery_frame (m : Monitor) (nowMs : Nat) (p : PingResult)
    (f : FetchResult) (d1 d2 : FetchResult) :
    (handleMonitorV1 m nowMs p f d1).monitor = (handleMonitorV1 m nowMs p f d2).monitor ∧
    (handleMonitorV1 m nowMs p f d1).newLogs = (handleMonitorV1 m nowMs p f d2).newLogs := by
  rw [handleMonitorV1_eq, handleMonitorV1_eq]
  cases checkStatusV1 m.ipOrUrl p f with
  | error e => exact ⟨rfl, rfl⟩
  | ok status =>
    by_cases hst : status = m.lastStatus <;> simp [hst]

/-- C9: a webhook delivery failure is swallowed inside sendWebhook: the
call still returns normally having made at most one attempt (never
retried), and the resulting pipeline state - monitor row and appended
MonitorLog rows - is identical to that under any other delivery
outcome, so the failure never propagates as a pipeline failure. -/
theorem sendWebhook_failure_swallowed (m : Monitor) (status : String) (nowMs : Nat)
    (e : JsError) (p : PingResult) (f : FetchResult) (d : FetchResult) :
    (∃ l, sendWebhook m status nowMs (.failure e) = .ok l ∧ l.length ≤ 1) ∧
    sendWebhook m status nowMs (.failure e) = sendWebhook m status nowMs d ∧
    (handleMonitorV1 m nowMs p f (.failure e)).monitor =
      (handleMonitorV1 m nowMs p f d).monitor ∧
    (handleMonitorV1 m nowMs p f (.failure e)).newLogs =
      (handleMonitorV1 m nowMs p f d).newLogs := by
  refine ⟨?_, ?_, (handleMonitor_delivery_frame m nowMs p f (.failure e) d).1,
    (handleMonitor_delivery_frame m nowMs p f (.failure e) d).2⟩
  · rw [sendWebhook_eq]
    refine ⟨_, rfl, ?_⟩
    split <;> simp
  · rw [sendWebhook_eq, sendWebhook_eq]

/-- C10 counterexample: under the part_001 model, a monitor created
without an explicit lastStatus starts at `online`, not `offline`. -/
theorem createMonitorV2_default_online :
    (createMonitorV2 "http://example.com").lastStatus = "online" ∧
    (createMonitorV2 "http://example.com").lastStatus ≠ "offline" :=
  ⟨rfl, by decide⟩

/-- C10 (amended): under the part_000 model a monitor created by the
add-monitor endpoint starts with lastStatus `offline`, so a first probe
resolving to `offline` appends no MonitorLog row and attempts no
webhook POST (under the part_001 model the default is `online` instead,
see the counterexample). -/
theorem createMonitorV1_first_offline_noop (a : String) (nowMs : Nat) (p : PingResult)
    (f : FetchResult) (d : FetchResult)
    (h : checkStatusV1 a p f = .ok "offline") :
    (createMonitorV1 a).lastStatus = "offline" ∧
    handleMonitorV1 (createMonitorV1 a) nowMs p f d = ⟨createMonitorV1 a, [], []⟩ := by
  refine ⟨rfl, ?_⟩
  unfold handleMonitorV1
  rw [show (createMonitorV1 a).ipOrUrl = a from rfl, h]
  simp [createMonitorV1]

/-- Witness for the amended C10 theorem: a freshly created `8.8.8.8`
monitor whose first ping reports not alive. -/
theorem createMonitorV1_first_offline_noop_witness :
    (createMonitorV1 "8.8.8.8").lastStatus = "offline" ∧
    handleMonitorV1 (createMonitorV1 "8.8.8.8") 60000 (.success false) (.success true)
        (.success true) =
      ⟨createMonitorV1 "8.8.8.8", [], []⟩ :=
  createMonitorV1_first_offline_noop "8.8.8.8" 60000 (.success false) (.success true)
    (.success true) rfl

/-- Witness for the C1 theorem: an `8.8.8.8` monitor at lastStatus
`offline` whose ping reports alive, transitioning to `online`. -/
theorem handleMonitor_statusEvent_iff_witness :
    ((handleMonitorV1 ⟨"8.8.8.8", "offline", none, none⟩ 60000 (.success true) (.success true)
        (.success true)).newLogs ≠ [] ↔ ("online" : String) ≠ "offline") ∧
    (("online" : String) ≠ "offline" →
      (handleMonitorV1 ⟨"8.8.8.8", "offline", none, none⟩ 60000 (.success true) (.success true)
        (.success true)).newLogs = [⟨"8.8.8.8", "online"⟩] ∧
      (handleMonitorV1 ⟨"8.8.8.8", "offline", none, none⟩ 60000 (.success true) (.success true)
        (.success true)).monitor.lastStatus = "online" ∧
      (handleMonitorV1 ⟨"8.8.8.8", "offline", none, none⟩ 60000 (.success true) (.success true)
        (.success true)).monitor.lastChecked = some 60000) :=
  handleMonitor_statusEvent_iff ⟨"8.8.8.8", "offline", none, none⟩ 60000 (.success true)
    (.success true) (.success true) "online" rfl

/-- Witness for the C6 theorem: an `8.8.8.8` monitor already `online`
whose ping reports alive again. -/
theorem handleMonitor_noChange_frame_witness :
    handleMonitorV1 ⟨"8.8.8.8", "online", some 1000, some "http://h.example"⟩ 60000
        (.success true) (.success true) (.success true) =
      ⟨⟨"8.8.8.8", "online", some 1000, some "http://h.example"⟩, [], []⟩ :=
  handleMonitor_noChange_frame ⟨"8.8.8.8", "online", some 1000, some "http://h.example"⟩ 60000
    (.success true) (.success true) (.success true) rfl

end UptimeMonitor
